import Mathlib

/-!
Shallow embedding of `components/webrender_traits/lib.rs`.

The file has two independent parts:

1. The external-image registry (`WebrenderExternalImageRegistry`) and the
   dispatcher (`WebrenderExternalImageHandlers`) implementing the renderer
   facing lock/unlock protocol.
2. The GPU surface lifecycle bridge (`WebrenderSurfman` over
   `WebrenderSurfmanData`), built on the external surfman capability.

Modelling conventions:
- `u64` / `u32` values become `Nat` with an explicit `% 2^64` where the
  source arithmetic can wrap (`next_image_id += 1`).
- The `HashMap<ExternalImageId, WebrenderImageHandlerType>` becomes a
  function map `ExternalImageId → Option WebrenderImageHandlerType`;
  insert / remove / get are pointwise updates, exactly the observable
  behaviour of the Rust map.
- The `Arc<Mutex<...>>` sharing and `RefCell` borrows are ownership and
  locking plumbing with no algorithmic content; the registry is inlined as
  a plain field and GPU-side mutable state lives in explicit oracles.
- External capabilities (the provider trait `WebrenderExternalImageApi`
  and the surfman device / swap-chain operations) are opaque, already
  correct dependencies per the interface they expose; each call site is
  given its result by an oracle record, and failures of GPU calls are
  opaque error codes (`Nat`) injected into `Error.gpu`.  The only error
  value this module itself produces is `Error.widgetAttached`.
- A Rust `panic!` / `expect` / `unwrap` failure is the `fatal`
  constructor of the result type; `i32` sizes become `Int` (the lossless
  part of the `as f32` cast; only the placement of the components in the
  UV rectangle matters here).
-/

namespace WebrenderTraits

/-- Pixel size, modelling `euclid::default::Size2D<i32>`. -/
structure Size2D where
  width : Int
  height : Int
deriving DecidableEq, Repr

/-- Newtype around the 64-bit id, modelling `webrender_api::ExternalImageId(u64)`. -/
structure ExternalImageId where
  val : Nat
deriving DecidableEq, Repr

/-- Texture-coordinate rectangle, modelling `webrender_api::units::TexelRect`
with corners `uv0 = (u0, v0)` and `uv1 = (u1, v1)`. -/
structure TexelRect where
  u0 : Int
  v0 : Int
  u1 : Int
  v1 : Int
deriving DecidableEq, Repr

/-- Constructor written in source argument order, `TexelRect::new(u0, v0, u1, v1)`. -/
def TexelRect.new (u0 v0 u1 v1 : Int) : TexelRect :=
  ⟨u0, v0, u1, v1⟩

/-- The external-image source used by the dispatcher,
`webrender_api::ExternalImageSource::NativeTexture(u32)`. -/
inductive ExternalImageSource where
  | nativeTexture (texture_id : Nat)
deriving DecidableEq, Repr

/-- The descriptor handed back to the renderer, `webrender_api::ExternalImage`. -/
structure ExternalImage where
  uv : TexelRect
  source : ExternalImageSource
deriving DecidableEq, Repr

/-- `webrender_api::ImageRendering`, accepted by `lock` but never consulted. -/
inductive ImageRendering where
  | auto
  | crispEdges
  | pixelated
deriving DecidableEq, Repr

/-- Result of an operation that either returns normally or hits an
unrecoverable panic path (`expect` / `unwrap`).  The Rust signatures have no
error type here, so there is no recoverable-error constructor. -/
inductive Fallible (α : Type) where
  | ok (a : α)
  | fatal (msg : String)
deriving DecidableEq, Repr

/-- `WebrenderImageHandlerType`: which provider owns an image. -/
inductive WebrenderImageHandlerType where
  | WebGL
  | Media
deriving DecidableEq, Repr

/-- The provider capability `WebrenderExternalImageApi`
(`lock(u64) -> (u32, Size2D<i32>)`, `unlock(u64)`).  Providers are external
collaborators; their internal state does not affect the dispatcher, so the
capability is modelled by its two functions. -/
structure WebrenderExternalImageApi where
  lockFn : Nat → Nat × Size2D
  unlockFn : Nat → Unit

/-- `WebrenderExternalImageRegistry`: the id-to-kind map plus the id counter. -/
structure WebrenderExternalImageRegistry where
  external_images : ExternalImageId → Option WebrenderImageHandlerType
  next_image_id : Nat

namespace WebrenderExternalImageRegistry

/-- `WebrenderExternalImageRegistry::new`. -/
def new : WebrenderExternalImageRegistry :=
  { external_images := fun _ => none, next_image_id := 0 }

/-- `WebrenderExternalImageRegistry::next_id`: bump the counter (u64
arithmetic, hence the `% 2 ^ 64`), insert the new key, return it.  The Rust
method mutates `&mut self`; the model returns the key with the new state. -/
def next_id (r : WebrenderExternalImageRegistry)
    (handler_type : WebrenderImageHandlerType) :
    ExternalImageId × WebrenderExternalImageRegistry :=
  let n := (r.next_image_id + 1) % 2 ^ 64
  let key : ExternalImageId := ⟨n⟩
  (key,
    { external_images := fun k => if k = key then some handler_type else r.external_images k,
      next_image_id := n })

/-- `WebrenderExternalImageRegistry::remove`. -/
def remove (r : WebrenderExternalImageRegistry) (key : ExternalImageId) :
    WebrenderExternalImageRegistry :=
  { r with external_images := fun k => if k = key then none else r.external_images k }

/-- `WebrenderExternalImageRegistry::get`. -/
def get (r : WebrenderExternalImageRegistry) (key : ExternalImageId) :
    Option WebrenderImageHandlerType :=
  r.external_images key

end WebrenderExternalImageRegistry

/-- A mutating operation on the shared registry, used to talk about whole
call sequences. -/
inductive RegistryOp where
  | nextId (t : WebrenderImageHandlerType)
  | removeId (k : ExternalImageId)

/-- Apply one registry operation. -/
def applyOp (r : WebrenderExternalImageRegistry) : RegistryOp → WebrenderExternalImageRegistry
  | .nextId t => (r.next_id t).2
  | .removeId k => r.remove k

/-- Run a sequence of registry operations. -/
def runOps (r : WebrenderExternalImageRegistry) : List RegistryOp → WebrenderExternalImageRegistry
  | [] => r
  | op :: ops => runOps (applyOp r op) ops

/-- The ids returned by a sequence of `next_id` calls, in call order. -/
def allocIds (r : WebrenderExternalImageRegistry) :
    List WebrenderImageHandlerType → List ExternalImageId
  | [] => []
  | t :: ts =>
    let p := r.next_id t
    p.1 :: allocIds p.2 ts

/-- Whether some `nextId` step in `ops`, run from `r`, returns the id `k`. -/
def reissues (k : ExternalImageId) :
    WebrenderExternalImageRegistry → List RegistryOp → Bool
  | _, [] => false
  | r, op :: ops =>
    (match op with
     | .nextId t => decide ((r.next_id t).1 = k)
     | .removeId _ => false) || reissues k (applyOp r op) ops

/-- `WebrenderExternalImageHandlers`: one optional provider per kind plus the
shared registry (the `Arc<Mutex<..>>` indirection is dropped; `lock` and
`unlock` read the registry through a held mutex guard, which in this
single-state model is a plain field read). -/
structure WebrenderExternalImageHandlers where
  webgl_handler : Option WebrenderExternalImageApi
  media_handler : Option WebrenderExternalImageApi
  external_images : WebrenderExternalImageRegistry

namespace WebrenderExternalImageHandlers

/-- `WebrenderExternalImageHandlers::new`; returns the handlers and the
shared registry handle. -/
def new : WebrenderExternalImageHandlers × WebrenderExternalImageRegistry :=
  ({ webgl_handler := none, media_handler := none,
     external_images := WebrenderExternalImageRegistry.new },
   WebrenderExternalImageRegistry.new)

/-- `WebrenderExternalImageHandlers::set_handler`. -/
def set_handler (self : WebrenderExternalImageHandlers)
    (handler : WebrenderExternalImageApi)
    (handler_type : WebrenderImageHandlerType) : WebrenderExternalImageHandlers :=
  match handler_type with
  | .WebGL => { self with webgl_handler := some handler }
  | .Media => { self with media_handler := some handler }

/-- `ExternalImageHandler::lock` for `WebrenderExternalImageHandlers`:
look the key up (`.expect` panics on an unknown id), route to the handler
for its kind (`.unwrap` panics on an empty slot), and build the descriptor
with the kind-dependent UV rectangle. -/
def lock (self : WebrenderExternalImageHandlers) (key : ExternalImageId)
    (_channel_index : Nat) (_rendering : ImageRendering) :
    Fallible ExternalImage :=
  match self.external_images.get key with
  | none => .fatal "Tried to get unknown external image"
  | some .WebGL =>
    match self.webgl_handler with
    | none => .fatal "called Option::unwrap() on a None value"
    | some handler =>
      let r := handler.lockFn key.val
      .ok { uv := TexelRect.new 0 r.2.height r.2.width 0,
            source := .nativeTexture r.1 }
  | some .Media =>
    match self.media_handler with
    | none => .fatal "called Option::unwrap() on a None value"
    | some handler =>
      let r := handler.lockFn key.val
      .ok { uv := TexelRect.new 0 0 r.2.width r.2.height,
            source := .nativeTexture r.1 }

/-- `ExternalImageHandler::unlock` for `WebrenderExternalImageHandlers`:
same lookup-or-panic routing, forwarding to the handler. -/
def unlock (self : WebrenderExternalImageHandlers) (key : ExternalImageId)
    (_channel_index : Nat) : Fallible Unit :=
  match self.external_images.get key with
  | none => .fatal "Tried to get unknown external image"
  | some .WebGL =>
    match self.webgl_handler with
    | none => .fatal "called Option::unwrap() on a None value"
    | some handler => .ok (handler.unlockFn key.val)
  | some .Media =>
    match self.media_handler with
    | none => .fatal "called Option::unwrap() on a None value"
    | some handler => .ok (handler.unlockFn key.val)

end WebrenderExternalImageHandlers

/-- `surfman::Error` as seen from this module: the module itself only ever
produces `WidgetAttached` (from `swap_chain()`); every failure coming back
from an external surfman / surfman-chains call is an opaque GPU error code. -/
inductive Error where
  | widgetAttached
  | gpu (code : Nat)
deriving DecidableEq, Repr

/-- Result of `present`, which can return, fail with an `Error`, or panic
(the `unwrap` on the unbound-surface case). -/
inductive PresentOutcome where
  | ok
  | err (e : Error)
  | fatal (msg : String)
deriving DecidableEq, Repr

/-- `surfman::SurfaceType<NativeWidget>`: an on-screen native widget or a
generic off-screen target of a given size. -/
inductive SurfaceType where
  | Widget (native_widget : Nat)
  | Generic (size : Size2D)
deriving DecidableEq, Repr

/-- The `headless` flag computed by `create` from the target descriptor. -/
def headlessOf : SurfaceType → Bool
  | .Widget _ => false
  | .Generic _ => true

/-- Externally visible GPU calls, recorded in order so that cleanup and
teardown ordering can be stated. -/
inductive GpuEvent where
  | createDevice
  | createContextDescriptor
  | createContext
  | createSurface (s : Nat)
  | bindSurface (s : Nat)
  | destroySurface (s : Nat)
  | createSwapChain
  | swapBuffers
  | unbindSurface
  | presentSurface (s : Nat)
  | swapChainDestroy
  | destroyContext
deriving DecidableEq, Repr

/-- `WebrenderSurfmanData`: the state owned by the manager.  Device and
context are opaque resources whose behaviour lives in the oracles, so only
the swap-chain slot (an `Option`, present or not) is state here. -/
structure WebrenderSurfmanData where
  swap_chain : Option Unit
deriving DecidableEq, Repr

/-- Results of the external surfman calls made by `WebrenderSurfman::create`,
one field per call site, in an opaque-GPU-error monad.  Surfaces are named by
`Nat` handles. -/
structure CreateOracle where
  create_device : Except Nat Unit
  create_context_descriptor : Except Nat Unit
  create_context : Except Nat Unit
  create_surface : Except Nat Nat
  bind_surface_to_context : Except Nat Unit
  create_attached : Except Nat Unit

/-- Results of the external calls made by `WebrenderSurfman::present`.
`unbind_surface_from_context` returns `Ok(Option<Surface>)` in surfman. -/
structure PresentOracle where
  swap_buffers : Except Nat Unit
  unbind_surface_from_context : Except Nat (Option Nat)
  present_surface : Except Nat Unit
  bind_surface_to_context : Except Nat Unit

/-- Result of the external `SwapChain::resize` call. -/
structure ResizeOracle where
  swap_chain_resize : Except Nat Unit

/-- Results of the external teardown calls made by `Drop`.  Both results are
discarded by the source (`let _ = ...`), which the model reflects by never
reading these fields. -/
structure DropOracle where
  swap_chain_destroy : Except Nat Unit
  destroy_context : Except Nat Unit

namespace WebrenderSurfman

/-- `WebrenderSurfman::create`: device, context descriptor, context, then the
initial surface; bind it to the context, destroying the surface first if the
bind fails; finally attach a swap chain exactly when the target is generic.
The connection / adapter / context-attributes arguments only feed the
external calls, so they are absorbed by the oracle.  Returns the result
together with the ordered trace of external GPU calls. -/
def create (o : CreateOracle) (surface_type : SurfaceType) :
    Except Error WebrenderSurfmanData × List GpuEvent :=
  match o.create_device with
  | .error e => (.error (.gpu e), [.createDevice])
  | .ok () =>
    match o.create_context_descriptor with
    | .error e => (.error (.gpu e), [.createDevice, .createContextDescriptor])
    | .ok () =>
      match o.create_context with
      | .error e => (.error (.gpu e), [.createDevice, .createContextDescriptor, .createContext])
      | .ok () =>
        let headless := headlessOf surface_type
        match o.create_surface with
        | .error e =>
          (.error (.gpu e),
           [.createDevice, .createContextDescriptor, .createContext, .createSurface 0])
        | .ok s =>
          match o.bind_surface_to_context with
          | .error e =>
            (.error (.gpu e),
             [.createDevice, .createContextDescriptor, .createContext,
              .createSurface s, .bindSurface s, .destroySurface s])
          | .ok () =>
            if headless then
              match o.create_attached with
              | .error e =>
                (.error (.gpu e),
                 [.createDevice, .createContextDescriptor, .createContext,
                  .createSurface s, .bindSurface s, .createSwapChain])
              | .ok () =>
                (.ok { swap_chain := some () },
                 [.createDevice, .createContextDescriptor, .createContext,
                  .createSurface s, .bindSurface s, .createSwapChain])
            else
              (.ok { swap_chain := none },
               [.createDevice, .createContextDescriptor, .createContext,
                .createSurface s, .bindSurface s])

/-- `WebrenderSurfman::swap_chain`: the attached swap chain, or the
`WidgetAttached` misuse error when there is none. -/
def swapChainOf (d : WebrenderSurfmanData) : Except Error Unit :=
  match d.swap_chain with
  | some _ => .ok ()
  | none => .error .widgetAttached

/-- `WebrenderSurfman::resize`: `self.swap_chain()?.resize(device, context, size)`.
The method takes `&self`; the returned state is the unchanged `d`. -/
def resize (d : WebrenderSurfmanData) (o : ResizeOracle) (_size : Size2D) :
    Except Error Unit × WebrenderSurfmanData :=
  match d.swap_chain with
  | none => (.error .widgetAttached, d)
  | some _ =>
    match o.swap_chain_resize with
    | .ok () => (.ok (), d)
    | .error e => (.error (.gpu e), d)

/-- `WebrenderSurfman::present`: swap-chain mode swaps buffers; widget mode
unbinds the current surface (`unwrap` panics if none is bound), presents it,
and rebinds it, destroying the surface first if the rebind fails.  The
method takes `&self`; the returned state is the unchanged `d`. -/
def present (d : WebrenderSurfmanData) (o : PresentOracle) :
    PresentOutcome × WebrenderSurfmanData × List GpuEvent :=
  match d.swap_chain with
  | some _ =>
    match o.swap_buffers with
    | .ok () => (.ok, d, [.swapBuffers])
    | .error e => (.err (.gpu e), d, [.swapBuffers])
  | none =>
    match o.unbind_surface_from_context with
    | .error e => (.err (.gpu e), d, [.unbindSurface])
    | .ok none => (.fatal "called Option::unwrap() on a None value", d, [.unbindSurface])
    | .ok (some s) =>
      match o.present_surface with
      | .error e => (.err (.gpu e), d, [.unbindSurface, .presentSurface s])
      | .ok () =>
        match o.bind_surface_to_context with
        | .error e =>
          (.err (.gpu e), d, [.unbindSurface, .presentSurface s, .bindSurface s, .destroySurface s])
        | .ok () => (.ok, d, [.unbindSurface, .presentSurface s, .bindSurface s])

end WebrenderSurfman

/-- `impl Drop for WebrenderSurfmanData`: destroy the swap chain (when
present) against device and context, discarding its result, then destroy
the context, discarding its result.  Neither oracle field is read: the
source writes `let _ = ...` around both calls, so no error can influence
the outcome, and the return type has no error or panic case. -/
def WebrenderSurfmanData.dropData (d : WebrenderSurfmanData) (_o : DropOracle) :
    Unit × List GpuEvent :=
  match d.swap_chain with
  | some _ => ((), [.swapChainDestroy, .destroyContext])
  | none => ((), [.destroyContext])

/-- The handler slot the dispatcher routes a kind to (helper for stating
claims about missing handlers). -/
def WebrenderExternalImageHandlers.slotFor (self : WebrenderExternalImageHandlers) :
    WebrenderImageHandlerType → Option WebrenderExternalImageApi
  | .WebGL => self.webgl_handler
  | .Media => self.media_handler

/-- Whether some step in `ops`, run from `r`, writes to or deletes the key
`k` (a `nextId` returning `k`, or a `removeId` of `k`). -/
def touches (k : ExternalImageId) :
    WebrenderExternalImageRegistry → List RegistryOp → Bool
  | _, [] => false
  | r, op :: ops =>
    (match op with
     | .nextId t => decide ((r.next_id t).1 = k)
     | .removeId k2 => decide (k2 = k)) || touches k (applyOp r op) ops

/-- The ids handed out by `allocIds`, as numbers: starting from counter `c`
with no wraparound they are exactly `c + 1, c + 2, ...`. -/
theorem allocIds_val_eq_range (ts : List WebrenderImageHandlerType) :
    ∀ r : WebrenderExternalImageRegistry,
      r.next_image_id + ts.length < 2 ^ 64 →
      (allocIds r ts).map ExternalImageId.val =
        List.range' (r.next_image_id + 1) ts.length := by
  induction ts with
  | nil => intro r _; simp [allocIds]
  | cons t ts ih =>
    intro r h
    have hlen : r.next_image_id + (ts.length + 1) < 2 ^ 64 := by
      simpa [List.length_cons] using h
    have hlt : r.next_image_id + 1 < 2 ^ 64 := by omega
    have hmod : (r.next_image_id + 1) % 2 ^ 64 = r.next_image_id + 1 :=
      Nat.mod_eq_of_lt hlt
    have hcount : ((r.next_id t).2).next_image_id = r.next_image_id + 1 := by
      simp only [WebrenderExternalImageRegistry.next_id]
      exact hmod
    have hrec := ih (r.next_id t).2 (by rw [hcount]; omega)
    rw [hcount] at hrec
    have hval : (r.next_id t).1.val = r.next_image_id + 1 := by
      simp only [WebrenderExternalImageRegistry.next_id]
      exact hmod
    simp only [allocIds, List.map_cons, List.length_cons]
    rw [hrec, hval, List.range'_succ]

/-- A key absent from the registry stays absent across any run of
operations that never re-issues it. -/
theorem get_none_of_no_reissue (k : ExternalImageId) (ops : List RegistryOp) :
    ∀ r : WebrenderExternalImageRegistry,
      r.get k = none → reissues k r ops = false → (runOps r ops).get k = none := by
  induction ops with
  | nil => intro r h _; simpa [runOps] using h
  | cons op ops ih =>
    intro r h hre
    simp only [reissues, Bool.or_eq_false_iff] at hre
    obtain ⟨h1, h2⟩ := hre
    refine ih (applyOp r op) ?_ h2
    cases op with
    | nextId t =>
      have hne : (r.next_id t).1 ≠ k := by
        simpa using h1
      simp only [applyOp, WebrenderExternalImageRegistry.next_id,
        WebrenderExternalImageRegistry.get] at *
      rw [if_neg]
      · exact h
      · exact fun hk => hne (by simpa [WebrenderExternalImageRegistry.next_id] using hk.symm)
    | removeId k2 =>
      simp only [applyOp, WebrenderExternalImageRegistry.remove,
        WebrenderExternalImageRegistry.get]
      by_cases hk : k = k2
      · simp [hk]
      · simpa [hk] using h

/-- A key untouched by a run of operations keeps its association. -/
theorem get_eq_of_untouched (k : ExternalImageId) (ops : List RegistryOp) :
    ∀ r : WebrenderExternalImageRegistry,
      touches k r ops = false → (runOps r ops).get k = r.get k := by
  induction ops with
  | nil => intro r _; simp [runOps]
  | cons op ops ih =>
    intro r htouch
    simp only [touches, Bool.or_eq_false_iff] at htouch
    obtain ⟨h1, h2⟩ := htouch
    have hrec := ih (applyOp r op) h2
    rw [show runOps r (op :: ops) = runOps (applyOp r op) ops from rfl, hrec]
    cases op with
    | nextId t =>
      have hne : (r.next_id t).1 ≠ k := by simpa using h1
      simp only [applyOp, WebrenderExternalImageRegistry.next_id,
        WebrenderExternalImageRegistry.get]
      rw [if_neg]
      exact fun hk => hne (by simpa [WebrenderExternalImageRegistry.next_id] using hk.symm)
    | removeId k2 =>
      have hne : k2 ≠ k := by simpa using h1
      simp only [applyOp, WebrenderExternalImageRegistry.remove,
        WebrenderExternalImageRegistry.get]
      rw [if_neg]
      exact fun hk => hne hk.symm

/-- C1: calling the dispatcher with an id the registry does not hold takes
the fatal protocol-violation path: `lock` and `unlock` both hit the
`expect` panic, never a silent no-op and never a recoverable error value. -/
theorem lock_unlock_unknown_id_fatal
    (self : WebrenderExternalImageHandlers) (key : ExternalImageId)
    (ch : Nat) (rend : ImageRendering)
    (h : self.external_images.get key = none) :
    self.lock key ch rend = .fatal "Tried to get unknown external image" ∧
    self.unlock key ch = .fatal "Tried to get unknown external image" := by
  constructor
  · simp [WebrenderExternalImageHandlers.lock, h]
  · simp [WebrenderExternalImageHandlers.unlock, h]

/-- Witness for C1: the freshly constructed dispatcher holds no ids, so
locking id 5 is fatal. -/
theorem lock_unlock_unknown_id_fatal_witness :
    WebrenderExternalImageHandlers.new.1.external_images.get ⟨5⟩ = none ∧
    (WebrenderExternalImageHandlers.new.1.lock ⟨5⟩ 0 .auto =
        .fatal "Tried to get unknown external image" ∧
      WebrenderExternalImageHandlers.new.1.unlock ⟨5⟩ 0 =
        .fatal "Tried to get unknown external image") :=
  ⟨rfl, lock_unlock_unknown_id_fatal WebrenderExternalImageHandlers.new.1 ⟨5⟩ 0 .auto rfl⟩

/-- C2: every finite sequence of `next_id` calls on a fresh registry, short
enough that the 64-bit counter cannot wrap, returns ids that are pairwise
strictly increasing in call order (hence pairwise distinct) and never the
value 0. -/
theorem alloc_ids_strictly_increasing_nonzero
    (ts : List WebrenderImageHandlerType) (h : ts.length < 2 ^ 64) :
    List.Pairwise (fun a b : ExternalImageId => a.val < b.val)
        (allocIds WebrenderExternalImageRegistry.new ts) ∧
    ∀ id ∈ allocIds WebrenderExternalImageRegistry.new ts, id.val ≠ 0 := by
  have hvals :
      (allocIds WebrenderExternalImageRegistry.new ts).map ExternalImageId.val =
        List.range' 1 ts.length := by
    simpa [WebrenderExternalImageRegistry.new] using
      allocIds_val_eq_range ts WebrenderExternalImageRegistry.new
        (by simpa [WebrenderExternalImageRegistry.new] using h)
  constructor
  · have hpw : List.Pairwise (· < ·)
        ((allocIds WebrenderExternalImageRegistry.new ts).map ExternalImageId.val) := by
      rw [hvals]; exact List.pairwise_lt_range' 1 ts.length
    exact (List.pairwise_map).mp hpw
  · intro id hid
    have hmem : id.val ∈ List.range' 1 ts.length := by
      rw [← hvals]; exact List.mem_map_of_mem ExternalImageId.val hid
    have := (List.mem_range'_1).mp hmem
    omega

/-- Witness for C2: three allocations from a fresh registry. -/
theorem alloc_ids_strictly_increasing_nonzero_witness :
    ([WebrenderImageHandlerType.WebGL, .Media, .WebGL] : List _).length < 2 ^ 64 ∧
    (List.Pairwise (fun a b : ExternalImageId => a.val < b.val)
        (allocIds WebrenderExternalImageRegistry.new [.WebGL, .Media, .WebGL]) ∧
      ∀ id ∈ allocIds WebrenderExternalImageRegistry.new [.WebGL, .Media, .WebGL],
        id.val ≠ 0) :=
  ⟨by norm_num,
   alloc_ids_strictly_increasing_nonzero [.WebGL, .Media, .WebGL] (by norm_num)⟩

/-- C3: `get` returns the kind most recently associated to an id:
immediately after `next_id` the new id maps to the given kind, and the
association survives any further operations that neither remove nor
re-issue the id; immediately after `remove` the id maps to nothing, and it
stays unmapped across any further operations that never re-issue it. -/
theorem get_tracks_most_recent_association
    (r : WebrenderExternalImageRegistry) (t : WebrenderImageHandlerType)
    (k : ExternalImageId) (ops : List RegistryOp) :
    (((r.next_id t).2).get (r.next_id t).1 = some t) ∧
    (touches (r.next_id t).1 (r.next_id t).2 ops = false →
      (runOps (r.next_id t).2 ops).get (r.next_id t).1 = some t) ∧
    ((r.remove k).get k = none) ∧
    (reissues k (r.remove k) ops = false →
      (runOps (r.remove k) ops).get k = none) := by
  refine ⟨?_, ?_, ?_, ?_⟩
  · simp [WebrenderExternalImageRegistry.next_id, WebrenderExternalImageRegistry.get]
  · intro htouch
    rw [get_eq_of_untouched _ ops _ htouch]
    simp [WebrenderExternalImageRegistry.next_id, WebrenderExternalImageRegistry.get]
  · simp [WebrenderExternalImageRegistry.remove, WebrenderExternalImageRegistry.get]
  · intro hre
    refine get_none_of_no_reissue k ops _ ?_ hre
    simp [WebrenderExternalImageRegistry.remove, WebrenderExternalImageRegistry.get]

/-- Witness for C3: allocate an id, run two unrelated operations, and check
it still maps to its kind; remove an id and check further unrelated
operations keep it unmapped. -/
theorem get_tracks_most_recent_association_witness :
    (touches (WebrenderExternalImageRegistry.new.next_id .WebGL).1
        (WebrenderExternalImageRegistry.new.next_id .WebGL).2
        [.nextId .Media, .removeId ⟨2⟩] = false ∧
      reissues (⟨5⟩ : ExternalImageId)
        (WebrenderExternalImageRegistry.new.remove ⟨5⟩)
        [.nextId .Media, .removeId ⟨2⟩] = false) ∧
    ((((WebrenderExternalImageRegistry.new.next_id .WebGL).2).get
          (WebrenderExternalImageRegistry.new.next_id .WebGL).1 = some .WebGL) ∧
      (touches (WebrenderExternalImageRegistry.new.next_id .WebGL).1
          (WebrenderExternalImageRegistry.new.next_id .WebGL).2
          [.nextId .Media, .removeId ⟨2⟩] = false →
        (runOps (WebrenderExternalImageRegistry.new.next_id .WebGL).2
            [.nextId .Media, .removeId ⟨2⟩]).get
          (WebrenderExternalImageRegistry.new.next_id .WebGL).1 = some .WebGL) ∧
      ((WebrenderExternalImageRegistry.new.remove ⟨5⟩).get ⟨5⟩ = none) ∧
      (reissues (⟨5⟩ : ExternalImageId)
          (WebrenderExternalImageRegistry.new.remove ⟨5⟩)
          [.nextId .Media, .removeId ⟨2⟩] = false →
        (runOps (WebrenderExternalImageRegistry.new.remove ⟨5⟩)
            [.nextId .Media, .removeId ⟨2⟩]).get ⟨5⟩ = none)) :=
  ⟨⟨by decide, by decide⟩,
   get_tracks_most_recent_association WebrenderExternalImageRegistry.new .WebGL ⟨5⟩
     [.nextId .Media, .removeId ⟨2⟩]⟩

/-- C4: for a registered id with its handler installed, the UV rectangle of
the returned descriptor depends only on the provider kind and the size the
provider reports: WebGL gets the Y-flipped rectangle
`(0, height, width, 0)`, Media the natural rectangle
`(0, 0, width, height)`. -/
theorem lock_uv_depends_on_kind
    (self : WebrenderExternalImageHandlers) (key : ExternalImageId)
    (ch : Nat) (rend : ImageRendering) (hdl : WebrenderExternalImageApi)
    (tid : Nat) (w ht : Int) :
    (self.external_images.get key = some .WebGL →
      self.webgl_handler = some hdl →
      hdl.lockFn key.val = (tid, ⟨w, ht⟩) →
      self.lock key ch rend =
        .ok { uv := TexelRect.new 0 ht w 0, source := .nativeTexture tid }) ∧
    (self.external_images.get key = some .Media →
      self.media_handler = some hdl →
      hdl.lockFn key.val = (tid, ⟨w, ht⟩) →
      self.lock key ch rend =
        .ok { uv := TexelRect.new 0 0 w ht, source := .nativeTexture tid }) := by
  constructor
  · intro h1 h2 h3
    simp [WebrenderExternalImageHandlers.lock, h1, h2, h3]
  · intro h1 h2 h3
    simp [WebrenderExternalImageHandlers.lock, h1, h2, h3]

/-- Witness for C4: a dispatcher with one id per kind and a handler
reporting size 64 x 32 for every image. -/
theorem lock_uv_depends_on_kind_witness :
    (({ webgl_handler := some ⟨fun _ => (7, ⟨64, 32⟩), fun _ => ()⟩,
        media_handler := some ⟨fun _ => (7, ⟨64, 32⟩), fun _ => ()⟩,
        external_images :=
          ((WebrenderExternalImageRegistry.new.next_id .WebGL).2.next_id .Media).2 } :
          WebrenderExternalImageHandlers).external_images.get ⟨1⟩ = some .WebGL ∧
      ({ webgl_handler := some ⟨fun _ => (7, ⟨64, 32⟩), fun _ => ()⟩,
         media_handler := some ⟨fun _ => (7, ⟨64, 32⟩), fun _ => ()⟩,
         external_images :=
           ((WebrenderExternalImageRegistry.new.next_id .WebGL).2.next_id .Media).2 } :
          WebrenderExternalImageHandlers).lock ⟨1⟩ 0 .auto =
        .ok { uv := TexelRect.new 0 32 64 0, source := .nativeTexture 7 }) :=
  ⟨by decide,
   (lock_uv_depends_on_kind
      { webgl_handler := some ⟨fun _ => (7, ⟨64, 32⟩), fun _ => ()⟩,
        media_handler := some ⟨fun _ => (7, ⟨64, 32⟩), fun _ => ()⟩,
        external_images :=
          ((WebrenderExternalImageRegistry.new.next_id .WebGL).2.next_id .Media).2 }
      ⟨1⟩ 0 .auto ⟨fun _ => (7, ⟨64, 32⟩), fun _ => ()⟩ 7 64 32).1
     (by decide) rfl rfl⟩

/-- C9: the dispatcher assumes a handler has been installed for the kind of
every registered id: when the registry knows the id but the handler slot for
its kind is empty, `lock` and `unlock` hit the `unwrap` panic instead of
returning or failing recoverably. -/
theorem lock_unlock_missing_handler_fatal
    (self : WebrenderExternalImageHandlers) (key : ExternalImageId)
    (ch : Nat) (rend : ImageRendering) (t : WebrenderImageHandlerType)
    (h1 : self.external_images.get key = some t)
    (h2 : self.slotFor t = none) :
    self.lock key ch rend = .fatal "called Option::unwrap() on a None value" ∧
    self.unlock key ch = .fatal "called Option::unwrap() on a None value" := by
  cases t with
  | WebGL =>
    simp only [WebrenderExternalImageHandlers.slotFor] at h2
    constructor
    · simp [WebrenderExternalImageHandlers.lock, h1, h2]
    · simp [WebrenderExternalImageHandlers.unlock, h1, h2]
  | Media =>
    simp only [WebrenderExternalImageHandlers.slotFor] at h2
    constructor
    · simp [WebrenderExternalImageHandlers.lock, h1, h2]
    · simp [WebrenderExternalImageHandlers.unlock, h1, h2]

/-- Witness for C9: a dispatcher whose registry holds id 1 as a Media image
but whose media handler slot was never set. -/
theorem lock_unlock_missing_handler_fatal_witness :
    (({ webgl_handler := none, media_handler := none,
        external_images := (WebrenderExternalImageRegistry.new.next_id .Media).2 } :
          WebrenderExternalImageHandlers).external_images.get ⟨1⟩ = some .Media ∧
      ({ webgl_handler := none, media_handler := none,
         external_images := (WebrenderExternalImageRegistry.new.next_id .Media).2 } :
          WebrenderExternalImageHandlers).slotFor .Media = none) ∧
    (({ webgl_handler := none, media_handler := none,
        external_images := (WebrenderExternalImageRegistry.new.next_id .Media).2 } :
          WebrenderExternalImageHandlers).lock ⟨1⟩ 0 .auto =
        .fatal "called Option::unwrap() on a None value" ∧
      ({ webgl_handler := none, media_handler := none,
         external_images := (WebrenderExternalImageRegistry.new.next_id .Media).2 } :
          WebrenderExternalImageHandlers).unlock ⟨1⟩ 0 =
        .fatal "called Option::unwrap() on a None value") :=
  ⟨⟨by decide, rfl⟩,
   lock_unlock_missing_handler_fatal
     { webgl_handler := none, media_handler := none,
       external_images := (WebrenderExternalImageRegistry.new.next_id .Media).2 }
     ⟨1⟩ 0 .auto .Media (by decide) rfl⟩

/-- A successful `create` holds a swap chain exactly when the target was
headless (generic / off-screen). -/
theorem create_ok_swap_chain (o : CreateOracle) (st : SurfaceType)
    (d : WebrenderSurfmanData) (ev : List GpuEvent)
    (h : WebrenderSurfman.create o st = (.ok d, ev)) :
    d.swap_chain = if headlessOf st then some () else none := by
  rcases hdev : o.create_device with e | u
  · simp [WebrenderSurfman.create, hdev] at h
  cases u
  rcases hcd : o.create_context_descriptor with e | u
  · simp [WebrenderSurfman.create, hdev, hcd] at h
  cases u
  rcases hcc : o.create_context with e | u
  · simp [WebrenderSurfman.create, hdev, hcd, hcc] at h
  cases u
  rcases hcs : o.create_surface with e | s
  · simp [WebrenderSurfman.create, hdev, hcd, hcc, hcs] at h
  rcases hb : o.bind_surface_to_context with e | u
  · simp [WebrenderSurfman.create, hdev, hcd, hcc, hcs, hb] at h
  cases u
  by_cases hh : headlessOf st = true
  · rcases hca : o.create_attached with e | u
    · simp [WebrenderSurfman.create, hdev, hcd, hcc, hcs, hb, hh, hca] at h
    cases u
    have hcreate : WebrenderSurfman.create o st =
        (.ok { swap_chain := some () },
         [.createDevice, .createContextDescriptor, .createContext,
          .createSurface s, .bindSurface s, .createSwapChain]) := by
      simp [WebrenderSurfman.create, hdev, hcd, hcc, hcs, hb, hh, hca]
    rw [hcreate] at h
    injection h with h1 h2
    injection h1 with h1
    rw [← h1]
    simp [hh]
  · have hcreate : WebrenderSurfman.create o st =
        (.ok { swap_chain := none },
         [.createDevice, .createContextDescriptor, .createContext,
          .createSurface s, .bindSurface s]) := by
      simp [WebrenderSurfman.create, hdev, hcd, hcc, hcs, hb, hh]
    rw [hcreate] at h
    injection h with h1 h2
    injection h1 with h1
    rw [← h1]
    simp [hh]

/-- C5: a successful `create` yields a swap chain exactly when the target
descriptor is generic (headless) and none for a widget target, and neither
`present` nor `resize` ever changes the manager state, so the presence or
absence of the swap chain is fixed for the manager lifetime. -/
theorem swap_chain_iff_generic_and_stable :
    (∀ (o : CreateOracle) (st : SurfaceType) (d : WebrenderSurfmanData)
        (ev : List GpuEvent),
      WebrenderSurfman.create o st = (.ok d, ev) →
        d.swap_chain = if headlessOf st then some () else none) ∧
    (∀ (d : WebrenderSurfmanData) (o : PresentOracle),
      (WebrenderSurfman.present d o).2.1 = d) ∧
    (∀ (d : WebrenderSurfmanData) (o : ResizeOracle) (size : Size2D),
      (WebrenderSurfman.resize d o size).2 = d) := by
  refine ⟨create_ok_swap_chain, ?_, ?_⟩
  · intro d o
    unfold WebrenderSurfman.present
    rcases d.swap_chain with _ | u
    · rcases o.unbind_surface_from_context with e | s
      · rfl
      · rcases s with _ | s
        · rfl
        · rcases o.present_surface with e | u
          · rfl
          · cases u
            rcases o.bind_surface_to_context with e | u
            · rfl
            · cases u; rfl
    · rcases o.swap_buffers with e | u
      · rfl
      · cases u; rfl
  · intro d o size
    unfold WebrenderSurfman.resize
    rcases d.swap_chain with _ | u
    · rfl
    · rcases o.swap_chain_resize with e | u
      · rfl
      · cases u; rfl

/-- Witness for C5: a fully successful creation against a generic target
holds a swap chain. -/
theorem swap_chain_iff_generic_and_stable_witness :
    WebrenderSurfman.create ⟨.ok (), .ok (), .ok (), .ok 3, .ok (), .ok ()⟩
        (.Generic ⟨100, 100⟩) =
      (.ok { swap_chain := some () },
       [.createDevice, .createContextDescriptor, .createContext,
        .createSurface 3, .bindSurface 3, .createSwapChain]) ∧
    ({ swap_chain := some () } : WebrenderSurfmanData).swap_chain =
      if headlessOf (.Generic ⟨100, 100⟩) then some () else none :=
  ⟨rfl,
   swap_chain_iff_generic_and_stable.1 ⟨.ok (), .ok (), .ok (), .ok 3, .ok (), .ok ()⟩
     (.Generic ⟨100, 100⟩) { swap_chain := some () }
     [.createDevice, .createContextDescriptor, .createContext,
      .createSurface 3, .bindSurface 3, .createSwapChain] rfl⟩

/-- C6: on a manager created against a widget target, `resize` fails with
the distinct `WidgetAttached` misuse error; on a manager created against a
generic target it either succeeds or fails with a GPU error, never with
`WidgetAttached`. -/
theorem resize_widget_attached_error (o : CreateOracle) (ro : ResizeOracle)
    (newSize : Size2D) :
    (∀ (w : Nat) (d : WebrenderSurfmanData) (ev : List GpuEvent),
      WebrenderSurfman.create o (.Widget w) = (.ok d, ev) →
        (WebrenderSurfman.resize d ro newSize).1 = .error .widgetAttached) ∧
    (∀ (sz : Size2D) (d : WebrenderSurfmanData) (ev : List GpuEvent),
      WebrenderSurfman.create o (.Generic sz) = (.ok d, ev) →
        (WebrenderSurfman.resize d ro newSize).1 = .ok () ∨
          ∃ e, (WebrenderSurfman.resize d ro newSize).1 = .error (.gpu e)) := by
  constructor
  · intro w d ev h
    have hsc := create_ok_swap_chain o (.Widget w) d ev h
    simp [headlessOf] at hsc
    simp [WebrenderSurfman.resize, hsc]
  · intro sz d ev h
    have hsc := create_ok_swap_chain o (.Generic sz) d ev h
    simp [headlessOf] at hsc
    rcases hr : ro.swap_chain_resize with e | u
    · exact Or.inr ⟨e, by simp [WebrenderSurfman.resize, hsc, hr]⟩
    · cases u; exact Or.inl (by simp [WebrenderSurfman.resize, hsc, hr])

/-- Witness for C6: both modes at concrete oracles; the widget-mode manager
rejects `resize` with `WidgetAttached`, the generic-mode manager does not. -/
theorem resize_widget_attached_error_witness :
    (WebrenderSurfman.create ⟨.ok (), .ok (), .ok (), .ok 3, .ok (), .ok ()⟩
        (.Widget 9) =
      (.ok { swap_chain := none },
       [.createDevice, .createContextDescriptor, .createContext,
        .createSurface 3, .bindSurface 3]) ∧
      WebrenderSurfman.create ⟨.ok (), .ok (), .ok (), .ok 3, .ok (), .ok ()⟩
        (.Generic ⟨100, 100⟩) =
      (.ok { swap_chain := some () },
       [.createDevice, .createContextDescriptor, .createContext,
        .createSurface 3, .bindSurface 3, .createSwapChain])) ∧
    ((WebrenderSurfman.resize { swap_chain := none } ⟨.error 4⟩ ⟨10, 10⟩).1 =
        .error .widgetAttached ∧
      ((WebrenderSurfman.resize { swap_chain := some () } ⟨.error 4⟩ ⟨10, 10⟩).1 =
          .ok () ∨
        ∃ e,
          (WebrenderSurfman.resize { swap_chain := some () } ⟨.error 4⟩ ⟨10, 10⟩).1 =
            .error (.gpu e))) :=
  ⟨⟨rfl, rfl⟩,
   ⟨(resize_widget_attached_error ⟨.ok (), .ok (), .ok (), .ok 3, .ok (), .ok ()⟩
       ⟨.error 4⟩ ⟨10, 10⟩).1 9 { swap_chain := none }
      [.createDevice, .createContextDescriptor, .createContext,
       .createSurface 3, .bindSurface 3] rfl,
    (resize_widget_attached_error ⟨.ok (), .ok (), .ok (), .ok 3, .ok (), .ok ()⟩
       ⟨.error 4⟩ ⟨10, 10⟩).2 ⟨100, 100⟩ { swap_chain := some () }
      [.createDevice, .createContextDescriptor, .createContext,
       .createSurface 3, .bindSurface 3, .createSwapChain] rfl⟩⟩

/-- C7: whenever binding a surface fails — the initial bind during `create`
or the rebind after a widget-mode `present` — the surface is destroyed
against the context (the `destroySurface` call appears in the trace, after
the failed bind) and only then is the error returned. -/
theorem bind_failure_destroys_surface (o : CreateOracle) (st : SurfaceType)
    (s e : Nat) (d : WebrenderSurfmanData) (po : PresentOracle) (s2 e2 : Nat) :
    (o.create_device = .ok () → o.create_context_descriptor = .ok () →
     o.create_context = .ok () → o.create_surface = .ok s →
     o.bind_surface_to_context = .error e →
       WebrenderSurfman.create o st =
         (.error (.gpu e),
          [.createDevice, .createContextDescriptor, .createContext,
           .createSurface s, .bindSurface s, .destroySurface s])) ∧
    (d.swap_chain = none → po.unbind_surface_from_context = .ok (some s2) →
     po.present_surface = .ok () → po.bind_surface_to_context = .error e2 →
       WebrenderSurfman.present d po =
         (.err (.gpu e2), d,
          [.unbindSurface, .presentSurface s2, .bindSurface s2, .destroySurface s2])) := by
  constructor
  · intro h1 h2 h3 h4 h5
    unfold WebrenderSurfman.create
    rw [h1, h2, h3, h4, h5]
  · intro h1 h2 h3 h4
    unfold WebrenderSurfman.present
    rw [h1, h2, h3, h4]

/-- Witness for C7: a failing bind in `create` and a failing rebind in a
widget-mode `present`, both at concrete oracles. -/
theorem bind_failure_destroys_surface_witness :
    ((⟨.ok (), .ok (), .ok (), .ok 3, .error 7, .ok ()⟩ :
        CreateOracle).create_device = .ok () ∧
      ({ swap_chain := none } : WebrenderSurfmanData).swap_chain = none) ∧
    (WebrenderSurfman.create ⟨.ok (), .ok (), .ok (), .ok 3, .error 7, .ok ()⟩
        (.Widget 9) =
      (.error (.gpu 7),
       [.createDevice, .createContextDescriptor, .createContext,
        .createSurface 3, .bindSurface 3, .destroySurface 3]) ∧
      WebrenderSurfman.present { swap_chain := none }
        ⟨.ok (), .ok (some 4), .ok (), .error 8⟩ =
      (.err (.gpu 8), { swap_chain := none },
       [.unbindSurface, .presentSurface 4, .bindSurface 4, .destroySurface 4])) :=
  ⟨⟨rfl, rfl⟩,
   ⟨(bind_failure_destroys_surface ⟨.ok (), .ok (), .ok (), .ok 3, .error 7, .ok ()⟩
       (.Widget 9) 3 7 { swap_chain := none }
       ⟨.ok (), .ok (some 4), .ok (), .error 8⟩ 4 8).1 rfl rfl rfl rfl rfl,
    (bind_failure_destroys_surface ⟨.ok (), .ok (), .ok (), .ok 3, .error 7, .ok ()⟩
       (.Widget 9) 3 7 { swap_chain := none }
       ⟨.ok (), .ok (some 4), .ok (), .error 8⟩ 4 8).2 rfl rfl rfl rfl⟩⟩

/-- C8: destruction tears the swap chain down strictly before the context is
destroyed when one is present, and its outcome is entirely independent of
the errors the teardown calls report — the result type has no error or
panic case, and the trace and value are the same for any two oracles. -/
theorem drop_order_and_swallows_errors (d : WebrenderSurfmanData)
    (o o2 : DropOracle) :
    (d.dropData o).2 =
      (if d.swap_chain.isSome then [GpuEvent.swapChainDestroy] else []) ++
        [GpuEvent.destroyContext] ∧
    d.dropData o = d.dropData o2 := by
  rcases hd : d.swap_chain with _ | u
  · simp [WebrenderSurfmanData.dropData, hd]
  · simp [WebrenderSurfmanData.dropData, hd]

/-- C10: widget-mode `present` assumes a surface is bound: when the unbind
call succeeds but yields no surface, `present` hits the `unwrap` panic
rather than returning an error. -/
theorem present_unbound_surface_fatal (d : WebrenderSurfmanData)
    (o : PresentOracle) (h1 : d.swap_chain = none)
    (h2 : o.unbind_surface_from_context = .ok none) :
    (WebrenderSurfman.present d o).1 =
      .fatal "called Option::unwrap() on a None value" := by
  unfold WebrenderSurfman.present
  rw [h1, h2]

/-- Witness for C10: a widget-mode manager whose unbind call reports no
bound surface. -/
theorem present_unbound_surface_fatal_witness :
    (({ swap_chain := none } : WebrenderSurfmanData).swap_chain = none ∧
      (⟨.ok (), .ok none, .ok (), .ok ()⟩ :
        PresentOracle).unbind_surface_from_context = .ok none) ∧
    (WebrenderSurfman.present { swap_chain := none }
        ⟨.ok (), .ok none, .ok (), .ok ()⟩).1 =
      .fatal "called Option::unwrap() on a None value" :=
  ⟨⟨rfl, rfl⟩,
   present_unbound_surface_fatal { swap_chain := none }
     ⟨.ok (), .ok none, .ok (), .ok ()⟩ rfl rfl⟩

end WebrenderTraits
